import Mathlib

/-!
Shallow embedding of `src/url_poller.py` (repository ARD92/url-checker).

The program issues one HTTP GET per named endpoint, classifies the outcome,
sorts the results by name, prints them and writes them to a JSON file.
The network and the clock are external to the program, so the embedding
takes the outcome of each HTTP request (a response with a status code and
an elapsed wall-clock time, or one of the exception kinds that the Python
code catches) and the timestamp strings as explicit inputs.  Elapsed time
is modelled as a rational number of seconds; Python float arithmetic is
abstracted to exact rational arithmetic.
-/

/-- The result dictionary built by `URLPoller.check_url` (lines 44-52 of
`src/url_poller.py`): keys `name`, `url`, `status`, `status_code`,
`response_time`, `error`, `timestamp`. -/
structure CheckResult where
  name : String
  url : String
  status : String
  status_code : Option Nat
  response_time : Option ℚ
  error : Option String
  timestamp : String
deriving Repr, DecidableEq

/-- Outcome of one `self.session.get(url, ...)` call, as seen by the
`try`/`except` chain of `check_url` (lines 54-84): either a response
arrives after `elapsed` wall-clock seconds, or one of the caught
exception classes is raised. -/
inductive ReqOutcome where
  | response (status_code : Nat) (elapsed : ℚ)
  | timeout
  | connectionError
  | requestException (msg : String)
  | otherException (msg : String)
deriving Repr, DecidableEq

/-- Round-half-to-even on a rational, the tie-breaking rule of the Python
built-in `round`.  For a value exactly halfway between two integers the
even neighbour is chosen (`f` and `f + 1` are consecutive, so exactly one
of them is even). -/
def roundHalfEven (q : ℚ) : ℤ :=
  if q - Int.floor q < 1/2 then Int.floor q
  else if 1/2 < q - Int.floor q then Int.floor q + 1
  else if Even (Int.floor q) then Int.floor q else Int.floor q + 1

/-- Python `round(x, 2)`: round to two decimal places with ties to even
(line 60 rounds the elapsed milliseconds this way). -/
def pyRound2 (q : ℚ) : ℚ := (roundHalfEven (q * 100) : ℚ) / 100

/-- `URLPoller.check_url` (lines 33-86): build the default result record,
then fill it in according to the request outcome.  On a response the
status code and the rounded elapsed milliseconds are recorded and the
status is classified by the first matching rule of the `if`/`elif` chain
(lines 62-71); each caught exception kind sets its own status and error
message (lines 73-84). -/
def check_url (timeout : Nat) (name url ts : String) (outcome : ReqOutcome) : CheckResult :=
  let result : CheckResult :=
    { name := name, url := url, status := "unknown", status_code := none,
      response_time := none, error := none, timestamp := ts }
  match outcome with
  | .response code elapsed =>
      let result := { result with
        status_code := some code,
        response_time := some (pyRound2 (elapsed * 1000)) }
      if code = 200 then { result with status := "up" }
      else if 300 ≤ code ∧ code < 400 then { result with status := "redirect" }
      else if 400 ≤ code ∧ code < 500 then { result with status := "client_error" }
      else if 500 ≤ code ∧ code < 600 then { result with status := "server_error" }
      else result
  | .timeout =>
      { result with
        status := "timeout",
        error := some ("Request timed out after " ++ toString timeout ++ " seconds") }
  | .connectionError =>
      { result with
        status := "connection_error",
        error := some "Failed to connect to the server" }
  | .requestException msg =>
      { result with status := "error", error := some msg }
  | .otherException msg =>
      { result with status := "error", error := some ("Unexpected error: " ++ msg) }

/-- Outcome of `future.result()` for one submitted check (lines 108-122):
either `check_url` ran and its request outcome and timestamp are known, or
the future itself raised and the collecting loop builds a synthetic record
timestamped at collection time. -/
inductive FutureOutcome where
  | ok (ts : String) (outcome : ReqOutcome)
  | raised (ts : String) (msg : String)
deriving Repr, DecidableEq

/-- The record appended to `results` for one completed future: the
`check_url` result on success, or the synthetic `error` record of lines
114-122 when the future raised. -/
def futureResult (timeout : Nat) (name url : String) : FutureOutcome → CheckResult
  | .ok ts outcome => check_url timeout name url ts outcome
  | .raised ts msg =>
      { name := name, url := url, status := "error", status_code := none,
        response_time := none,
        error := some ("Future execution error: " ++ msg), timestamp := ts }

/-- The sort key of line 124: compare results by their `name` field. -/
def nameLe (a b : CheckResult) : Prop := a.name ≤ b.name

instance : DecidableRel nameLe := fun a b =>
  inferInstanceAs (Decidable (a.name ≤ b.name))

instance : IsTotal CheckResult nameLe := ⟨fun a b => le_total a.name b.name⟩

instance : IsTrans CheckResult nameLe := ⟨fun _ _ _ h h2 => le_trans h h2⟩

/-- `URLPoller.poll_urls` (lines 88-124).  The input dictionary is a list
of name/url pairs (Python dict keys are unique).  The thread pool is
external, so the order in which futures complete is an input: `completed`
is the input pairs in completion order (theorems below quantify over every
permutation of the input).  Each completed future contributes one record
via `futureResult`, and line 124 returns the collected list sorted by
name.  Python `sorted` is a stable comparison sort; `List.insertionSort`
with the same key order models it. -/
def poll_urls (timeout : Nat) (env : String → String → FutureOutcome)
    (completed : List (String × String)) : List CheckResult :=
  List.insertionSort nameLe
    (completed.map (fun p => futureResult timeout p.1 p.2 (env p.1 p.2)))

/-- Python truthiness of the `status_code` field: `None` and `0` are
falsy, every other integer is truthy (line 162 tests
`if result[\x27status_code\x27]:`). -/
def pyTruthyNat : Option Nat → Bool
  | none => false
  | some n => n != 0

/-- Python truthiness of the `response_time` field: `None` and `0.0` are
falsy (line 164). -/
def pyTruthyRat : Option ℚ → Bool
  | none => false
  | some q => q != 0

/-- Python truthiness of the `error` field: `None` and the empty string
are falsy (line 166). -/
def pyTruthyStr : Option String → Bool
  | none => false
  | some s => s != ""

/-- The status-code sub-line of `print_results` (lines 162-163), guarded
by Python truthiness of the field.  The rendering of numbers inside the
lines abstracts the Python `str()` of `int`/`float` by `toString`; the
claims below concern only which lines appear. -/
def statusCodeLine (r : CheckResult) : List String :=
  if pyTruthyNat r.status_code then
    ["   Status Code: " ++ toString (r.status_code.getD 0)] else []

/-- The response-time sub-line of `print_results` (lines 164-165). -/
def responseTimeLine (r : CheckResult) : List String :=
  if pyTruthyRat r.response_time then
    ["   Response Time: " ++ toString (r.response_time.getD 0) ++ "ms"] else []

/-- The error sub-line of `print_results` (lines 166-167). -/
def errorLine (r : CheckResult) : List String :=
  if pyTruthyStr r.error then ["   Error: " ++ r.error.getD ""] else []

/-- All indented detail sub-lines printed for one result when
`show_details` is set (lines 161-167). -/
def detailLines (r : CheckResult) : List String :=
  statusCodeLine r ++ responseTimeLine r ++ errorLine r

/-- JSON values, for the serialized output file and the parsed input
file. -/
inductive JsonVal where
  | null
  | bool (b : Bool)
  | num (q : ℚ)
  | str (s : String)
  | arr (elems : List JsonVal)
  | obj (fields : List (String × JsonVal))

/-- Serialization of an optional integer field: Python `None` becomes
JSON `null`, an integer becomes a JSON number. -/
def optNatJson : Option Nat → JsonVal
  | none => .null
  | some n => .num n

/-- Serialization of an optional float field. -/
def optRatJson : Option ℚ → JsonVal
  | none => .null
  | some q => .num q

/-- Serialization of an optional string field. -/
def optStrJson : Option String → JsonVal
  | none => .null
  | some s => .str s

/-- The key/value pairs written by `json.dump` for one result dictionary
(lines 199-200): Python dicts keep insertion order, so the keys appear in
the order in which `check_url` (lines 44-52) and the synthetic record
(lines 114-122) insert them. -/
def resultToJson (r : CheckResult) : List (String × JsonVal) :=
  [("name", .str r.name), ("url", .str r.url), ("status", .str r.status),
   ("status_code", optNatJson r.status_code),
   ("response_time", optRatJson r.response_time),
   ("error", optStrJson r.error),
   ("timestamp", .str r.timestamp)]

/-- The whole output file: a JSON array with one object per result, in
list order. -/
def resultsToJson (rs : List CheckResult) : JsonVal :=
  .arr (rs.map (fun r => .obj (resultToJson r)))

/-- Result of `load_urls_from_file` (lines 207-225): either the parsed
JSON document, or a printed diagnostic followed by `sys.exit(1)`. -/
inductive LoadOutcome where
  | fatal (msg : String) (exit_code : Nat)
  | loaded (j : JsonVal)

/-- `load_urls_from_file` (lines 207-225).  The file system is external:
`none` models a missing file (`FileNotFoundError`), `some none` a file
whose contents `json.load` rejects (`JSONDecodeError`), and
`some (some j)` a file parsing to the document `j`.  The two failure
cases print a diagnostic naming the file and call `sys.exit(1)`. -/
def load_urls_from_file (filename : String) : Option (Option JsonVal) → LoadOutcome
  | none =>
      .fatal ("Error: File \x27" ++ filename ++ "\x27 not found") 1
  | some none =>
      .fatal ("Error: Invalid JSON in file \x27" ++ filename ++ "\x27") 1
  | some (some j) => .loaded j

/-- First field with the given key in a JSON object.  `json.load` keeps
only the last duplicate key, so objects it produces have distinct keys
and the first match is the only match. -/
def lookupField (fields : List (String × JsonVal)) (k : String) : Option JsonVal :=
  (fields.find? (fun p => p.1 == k)).map Prod.snd

/-- Python dict assignment `d[k] = v`: an existing key keeps its position
and gets the new value, a new key is appended. -/
def dictInsert (d : List (String × String)) (k v : String) : List (String × String) :=
  if d.any (fun p => p.1 == k) then
    d.map (fun p => if p.1 == k then (k, v) else p)
  else d ++ [(k, v)]

/-- One iteration of the loop `for item in urls` (lines 233-236): read
`item[\x27url\x27]` and `item[\x27caption\x27]`.  `none` models the paths
on which the Python loop raises an uncaught exception (a non-object item,
a missing key, or a non-string value outside the fragment modelled
here). -/
def itemUrlCaption : JsonVal → Option (String × String)
  | .obj fields =>
      match lookupField fields "url", lookupField fields "caption" with
      | some (.str u), some (.str c) => some (c, u)
      | _, _ => none
  | _ => none

/-- The loop of lines 232-236 over a parsed array, building `urls_dict`
in iteration order with Python dict assignment semantics. -/
def buildUrlsDict (acc : List (String × String)) : List JsonVal → Option (List (String × String))
  | [] => some acc
  | item :: rest =>
      match itemUrlCaption item with
      | some (c, u) => buildUrlsDict (dictInsert acc c u) rest
      | none => none

/-- The transformation of the parsed input document into the name/url
dictionary (lines 232-236).  A document that is not an array makes the
loop raise an uncaught exception, modelled by `none`. -/
def extract_urls : JsonVal → Option (List (String × String))
  | .arr items => buildUrlsDict [] items
  | _ => none

/-- How one process run ends: a printed diagnostic plus `sys.exit` with
the given code, an uncaught Python exception (traceback, nonzero exit),
or a completed run with its result list and process exit code. -/
inductive RunOutcome where
  | fatalExit (msg : String) (exit_code : Nat)
  | uncaught
  | completed (results : List CheckResult) (exit_code : Nat)

/-- Line 204: `sum(1 for r in results if r[\x27status\x27] not in
[\x27up\x27, \x27redirect\x27])`. -/
def failed_count (results : List CheckResult) : Nat :=
  (results.filter (fun r => !(r.status == "up" || r.status == "redirect"))).length

/-- The example endpoint dictionary built by `main` from the literal list
of lines 173-177 (caption becomes the name, lines 186-190). -/
def example_urls : List (String × String) :=
  [("Google", "https://www.google.com"), ("Amazon", "https://www.amazon.com"),
   ("Github", "https://www.github.com")]

/-- The in-memory example path: `main` (lines 170-205) polls, prints,
saves, and returns `failed_count`, and line 250 passes that return value
to `sys.exit`.  `completed` is the completion order of the example
endpoints (a permutation of `example_urls` in the theorems below). -/
def main_run (timeout : Nat) (env : String → String → FutureOutcome)
    (completed : List (String × String)) : RunOutcome :=
  let results := poll_urls timeout env completed
  .completed results (failed_count results)

/-- The input-file path of the `__main__` block (lines 229-246): load the
file, transform it into the dictionary, poll, print and save.  This
branch never calls `sys.exit` after polling; the script simply falls off
the end of the `if` statement, so the interpreter exits with status 0.
`completed` is the completion order of the extracted endpoints. -/
def file_branch_run (timeout : Nat) (env : String → String → FutureOutcome)
    (filename : String) (fs : Option (Option JsonVal))
    (completed : List (String × String)) : RunOutcome :=
  match load_urls_from_file filename fs with
  | .fatal msg code => .fatalExit msg code
  | .loaded j =>
      match extract_urls j with
      | none => .uncaught
      | some _ => .completed (poll_urls timeout env completed) 0

theorem check_url_name (t : Nat) (n u ts : String) (o : ReqOutcome) :
    (check_url t n u ts o).name = n := by
  cases o <;> simp only [check_url] <;> split_ifs <;> rfl

theorem check_url_url (t : Nat) (n u ts : String) (o : ReqOutcome) :
    (check_url t n u ts o).url = u := by
  cases o <;> simp only [check_url] <;> split_ifs <;> rfl

theorem futureResult_name (t : Nat) (n u : String) (f : FutureOutcome) :
    (futureResult t n u f).name = n := by
  cases f
  · exact check_url_name t n u _ _
  · rfl

theorem futureResult_url (t : Nat) (n u : String) (f : FutureOutcome) :
    (futureResult t n u f).url = u := by
  cases f
  · exact check_url_url t n u _ _
  · rfl

theorem roundHalfEven_nonneg {q : ℚ} (h : 0 ≤ q) : 0 ≤ roundHalfEven q := by
  have hf : (0 : ℤ) ≤ Int.floor q := Int.floor_nonneg.mpr h
  unfold roundHalfEven
  split_ifs <;> omega

theorem pyRound2_nonneg {q : ℚ} (h : 0 ≤ q) : 0 ≤ pyRound2 q := by
  have h1 : (0 : ℚ) ≤ q * 100 := by positivity
  have h2 := roundHalfEven_nonneg h1
  unfold pyRound2
  have : (0 : ℚ) ≤ (roundHalfEven (q * 100) : ℚ) := by exact_mod_cast h2
  positivity

/-- C2: for every check that receives an HTTP response, `check_url`
records the received status code and classifies by the first matching
rule: 200 is `up`, 300-399 is `redirect`, 400-499 is `client_error`,
500-599 is `server_error`, any other code is `unknown`. -/
theorem check_url_classification (t : Nat) (n u ts : String) (code : Nat) (e : ℚ) :
    (check_url t n u ts (.response code e)).status_code = some code ∧
    (code = 200 → (check_url t n u ts (.response code e)).status = "up") ∧
    (300 ≤ code → code < 400 →
      (check_url t n u ts (.response code e)).status = "redirect") ∧
    (400 ≤ code → code < 500 →
      (check_url t n u ts (.response code e)).status = "client_error") ∧
    (500 ≤ code → code < 600 →
      (check_url t n u ts (.response code e)).status = "server_error") ∧
    (code ≠ 200 → ¬(300 ≤ code ∧ code < 400) → ¬(400 ≤ code ∧ code < 500) →
      ¬(500 ≤ code ∧ code < 600) →
      (check_url t n u ts (.response code e)).status = "unknown") := by
  simp only [check_url]
  split_ifs <;>
    refine ⟨rfl, ?_, ?_, ?_, ?_, ?_⟩ <;>
      intros <;> first | rfl | (exfalso; omega)

/-- Witness for C2 at the HTTP 404 example of the spec. -/
theorem check_url_classification_witness :
    (check_url 10 "Example" "https://example.com" "2026-10-12T00:00:00"
        (.response 404 1)).status = "client_error" ∧
    (check_url 10 "Example" "https://example.com" "2026-10-12T00:00:00"
        (.response 404 1)).status_code = some 404 := by
  have h := check_url_classification 10 "Example" "https://example.com"
    "2026-10-12T00:00:00" 404 1
  exact ⟨h.2.2.2.1 (by decide) (by decide), h.1⟩

/-- C5: a request that exceeds the configured timeout yields status
`timeout` with a non-null error message containing the configured timeout
value, while status code and response time stay null. -/
theorem check_url_timeout_spec (t : Nat) (n u ts : String) :
    (check_url t n u ts .timeout).status = "timeout" ∧
    (∃ a b, (check_url t n u ts .timeout).error = some (a ++ toString t ++ b)) ∧
    (check_url t n u ts .timeout).status_code = none ∧
    (check_url t n u ts .timeout).response_time = none :=
  ⟨rfl, ⟨"Request timed out after ", " seconds", rfl⟩, rfl, rfl⟩

/-- C8: a check answered with HTTP 200 yields status `up` and records the
elapsed time in milliseconds rounded to two decimal places, a value that
is non-negative and an integer number of hundredths. -/
theorem check_url_200_spec (t : Nat) (n u ts : String) (elapsed : ℚ)
    (h : 0 ≤ elapsed) :
    (check_url t n u ts (.response 200 elapsed)).status = "up" ∧
    (check_url t n u ts (.response 200 elapsed)).response_time
      = some (pyRound2 (elapsed * 1000)) ∧
    0 ≤ pyRound2 (elapsed * 1000) ∧
    pyRound2 (elapsed * 1000)
      = (roundHalfEven (elapsed * 1000 * 100) : ℚ) / 100 := by
  refine ⟨rfl, rfl, pyRound2_nonneg (by positivity), rfl⟩

/-- Witness for C8 at one second of elapsed time. -/
theorem check_url_200_spec_witness :
    (0 : ℚ) ≤ 1 ∧
    ((check_url 10 "Google" "https://www.google.com" "2026-10-12T00:00:00"
        (.response 200 1)).status = "up" ∧
    (check_url 10 "Google" "https://www.google.com" "2026-10-12T00:00:00"
        (.response 200 1)).response_time = some (pyRound2 (1 * 1000)) ∧
    0 ≤ pyRound2 (1 * 1000) ∧
    pyRound2 (1 * 1000) = (roundHalfEven (1 * 1000 * 100) : ℚ) / 100) :=
  ⟨by norm_num,
    check_url_200_spec 10 "Google" "https://www.google.com"
      "2026-10-12T00:00:00" 1 (by norm_num)⟩

/-- C9: `check_url` is total over every request outcome: it always
returns a full record whose name and url equal the inputs and whose
status is one of the eight documented values. -/
theorem check_url_total (t : Nat) (n u ts : String) (o : ReqOutcome) :
    (check_url t n u ts o).name = n ∧ (check_url t n u ts o).url = u ∧
    (check_url t n u ts o).status ∈
      ["up", "redirect", "client_error", "server_error", "unknown",
       "timeout", "connection_error", "error"] := by
  refine ⟨check_url_name t n u ts o, check_url_url t n u ts o, ?_⟩
  cases o <;> simp only [check_url] <;> (try split_ifs) <;> simp

/-- C10: the detail sub-lines of `print_results` are guarded by Python
truthiness of the field, not by a comparison with `None`: a null or zero
status code, a null or exactly-zero response time, and a null or empty
error each suppress their sub-line. -/
theorem print_details_truthy (r : CheckResult) :
    (statusCodeLine r ≠ [] ↔ ∃ c, r.status_code = some c ∧ c ≠ 0) ∧
    (responseTimeLine r ≠ [] ↔ ∃ q, r.response_time = some q ∧ q ≠ 0) ∧
    (errorLine r ≠ [] ↔ ∃ s, r.error = some s ∧ s ≠ "") ∧
    (r.status_code = some 0 → statusCodeLine r = []) ∧
    (r.response_time = some 0 → responseTimeLine r = []) ∧
    detailLines r = statusCodeLine r ++ responseTimeLine r ++ errorLine r := by
  obtain ⟨n, u, s, sc, rt, er, ts⟩ := r
  refine ⟨?_, ?_, ?_, ?_, ?_, rfl⟩
  · cases sc <;>
      simp [statusCodeLine, pyTruthyNat]
  · cases rt <;>
      simp [responseTimeLine, pyTruthyRat]
  · cases er <;>
      simp [errorLine, pyTruthyStr]
  · cases sc <;>
      simp [statusCodeLine, pyTruthyNat]
  · cases rt <;>
      simp [responseTimeLine, pyTruthyRat]

/-- Witness for C10: a non-null status code 0 and a non-null response
time of exactly zero produce no sub-line. -/
theorem print_details_truthy_witness :
    statusCodeLine
      { name := "A", url := "u", status := "up", status_code := some 0,
        response_time := some 0, error := none, timestamp := "ts" } = [] ∧
    responseTimeLine
      { name := "A", url := "u", status := "up", status_code := some 0,
        response_time := some 0, error := none, timestamp := "ts" } = [] := by
  have h := print_details_truthy
    { name := "A", url := "u", status := "up", status_code := some 0,
      response_time := some 0, error := none, timestamp := "ts" }
  exact ⟨h.2.2.2.1 rfl, h.2.2.2.2.1 rfl⟩

/-- C1: one result per input endpoint, matched by name, no duplicates and
no omissions, and a future that raises is replaced by the synthetic
`error` record instead of dropping the endpoint. -/
theorem poll_urls_complete (t : Nat) (env : String → String → FutureOutcome)
    (urls completed : List (String × String))
    (hperm : completed.Perm urls)
    (hnodup : (urls.map Prod.fst).Nodup) :
    (poll_urls t env completed).length = urls.length ∧
    (∀ p ∈ urls,
      ((poll_urls t env completed).filter (fun r => r.name == p.1)).length = 1) ∧
    (∀ r ∈ poll_urls t env completed, (r.name, r.url) ∈ urls) ∧
    (∀ p ∈ urls, ∀ ts msg, env p.1 p.2 = FutureOutcome.raised ts msg →
      ({ name := p.1, url := p.2, status := "error", status_code := none,
         response_time := none,
         error := some ("Future execution error: " ++ msg),
         timestamp := ts } : CheckResult) ∈ poll_urls t env completed) := by
  have hres : (poll_urls t env completed).Perm
      (urls.map (fun p => futureResult t p.1 p.2 (env p.1 p.2))) :=
    (List.perm_insertionSort nameLe _).trans (hperm.map _)
  refine ⟨?_, ?_, ?_, ?_⟩
  · rw [hres.length_eq, List.length_map]
  · intro p hp
    rw [← List.countP_eq_length_filter, hres.countP_eq, List.countP_map]
    have h1 : List.countP
        ((fun r : CheckResult => r.name == p.1) ∘
          fun q : String × String => futureResult t q.1 q.2 (env q.1 q.2)) urls
        = List.countP (fun q : String × String => q.1 == p.1) urls := by
      refine List.countP_congr ?_
      intro x hx
      simp [Function.comp, futureResult_name]
    rw [h1]
    have h2 : List.countP (fun q : String × String => q.1 == p.1) urls
        = (urls.map Prod.fst).count p.1 := by
      rw [List.count_eq_countP, List.countP_map]
      rfl
    rw [h2]
    exact List.count_eq_one_of_mem hnodup (List.mem_map_of_mem Prod.fst hp)
  · intro r hr
    rw [hres.mem_iff] at hr
    obtain ⟨q, hq, rfl⟩ := List.mem_map.mp hr
    simpa [futureResult_name, futureResult_url] using hq
  · intro p hp ts msg henv
    rw [hres.mem_iff]
    refine List.mem_map.mpr ⟨p, hp, ?_⟩
    rw [henv]
    rfl

/-- Witness for C1 on two endpoints completing in reverse order, the
second of which raises at the future level. -/
theorem poll_urls_complete_witness :
    ([(("Github" : String), ("https://www.github.com" : String)),
      ("Amazon", "https://www.amazon.com")].Perm
      [("Amazon", "https://www.amazon.com"),
       ("Github", "https://www.github.com")]) ∧
    (([(("Amazon" : String), ("https://www.amazon.com" : String)),
       ("Github", "https://www.github.com")].map Prod.fst).Nodup) ∧
    (poll_urls 10
        (fun n _ => if n == "Github" then FutureOutcome.raised "t2" "boom"
          else FutureOutcome.ok "t1" (ReqOutcome.response 200 1))
        [("Github", "https://www.github.com"),
         ("Amazon", "https://www.amazon.com")]).length
      = [(("Amazon" : String), ("https://www.amazon.com" : String)),
         ("Github", "https://www.github.com")].length :=
  ⟨by decide, by decide,
    (poll_urls_complete 10
      (fun n _ => if n == "Github" then FutureOutcome.raised "t2" "boom"
        else FutureOutcome.ok "t1" (ReqOutcome.response 200 1))
      [("Amazon", "https://www.amazon.com"), ("Github", "https://www.github.com")]
      [("Github", "https://www.github.com"), ("Amazon", "https://www.amazon.com")]
      (by decide) (by decide)).1⟩

/-- C3: for every input mapping and every completion order, the list
returned by `poll_urls` is sorted by the `name` field in ascending string
order, and it is a permutation of the one-record-per-input list, so the
sorting does not depend on completion order. -/
theorem poll_urls_sorted (t : Nat) (env : String → String → FutureOutcome)
    (urls completed : List (String × String)) (hperm : completed.Perm urls) :
    List.Sorted nameLe (poll_urls t env completed) ∧
    (poll_urls t env completed).Perm
      (urls.map (fun p => futureResult t p.1 p.2 (env p.1 p.2))) :=
  ⟨List.sorted_insertionSort nameLe _,
    (List.perm_insertionSort nameLe _).trans (hperm.map _)⟩

/-- Witness for C3 on two endpoints completing in reverse name order. -/
theorem poll_urls_sorted_witness :
    ([(("B" : String), ("u2" : String)), ("A", "u1")].Perm
      [("A", "u1"), ("B", "u2")]) ∧
    List.Sorted nameLe
      (poll_urls 10 (fun _ _ => FutureOutcome.ok "t" ReqOutcome.timeout)
        [("B", "u2"), ("A", "u1")]) :=
  ⟨by decide,
    (poll_urls_sorted 10 (fun _ _ => FutureOutcome.ok "t" ReqOutcome.timeout)
      [("A", "u1"), ("B", "u2")] [("B", "u2"), ("A", "u1")] (by decide)).1⟩

/-- C6 counterexample: the serialized result object has no key named
response_time_ms; the milliseconds value is stored under the key
response_time. -/
theorem output_fields_counterexample :
    ("response_time_ms" ∉
      (resultToJson (check_url 10 "Google" "https://www.google.com"
        "2026-10-12T00:00:00" (ReqOutcome.response 200 1))).map Prod.fst) ∧
    (resultToJson (check_url 10 "Google" "https://www.google.com"
        "2026-10-12T00:00:00" (ReqOutcome.response 200 1))).map Prod.fst
      ≠ ["name", "url", "status", "status_code", "response_time_ms",
         "error", "timestamp"] := by
  constructor
  · decide
  · decide

/-- C6 (amended): every serialized result object has exactly the keys
name, url, status, status_code, response_time, error and timestamp, in
that order; the three optional fields serialize to null exactly when the
field is absent and otherwise to a number or string; the output file is
the array of these objects in list order. -/
theorem output_fields_exact (r : CheckResult) :
    (resultToJson r).map Prod.fst
      = ["name", "url", "status", "status_code", "response_time",
         "error", "timestamp"] ∧
    (r.status_code = none → optNatJson r.status_code = JsonVal.null) ∧
    (∀ c, r.status_code = some c → optNatJson r.status_code = JsonVal.num c) ∧
    (r.response_time = none → optRatJson r.response_time = JsonVal.null) ∧
    (∀ q, r.response_time = some q → optRatJson r.response_time = JsonVal.num q) ∧
    (r.error = none → optStrJson r.error = JsonVal.null) ∧
    (∀ s, r.error = some s → optStrJson r.error = JsonVal.str s) ∧
    lookupField (resultToJson r) "timestamp" = some (JsonVal.str r.timestamp) ∧
    (∀ rs : List CheckResult, resultsToJson rs
      = JsonVal.arr (rs.map (fun x => JsonVal.obj (resultToJson x)))) := by
  refine ⟨rfl, ?_, ?_, ?_, ?_, ?_, ?_, rfl, fun rs => rfl⟩ <;>
    first
      | (intro h; rw [h]; rfl)
      | (intro c h; rw [h]; rfl)

/-- Witness for C6 at a timeout result, whose response time serializes to
null. -/
theorem output_fields_exact_witness :
    optRatJson (check_url 10 "A" "https://a.example" "ts"
      ReqOutcome.timeout).response_time = JsonVal.null :=
  (output_fields_exact (check_url 10 "A" "https://a.example" "ts"
    ReqOutcome.timeout)).2.2.2.1 rfl

/-- C4 counterexample: on the input-file path, a well-formed file with a
single endpoint whose check times out completes with process exit code 0
even though the count of results that are neither up nor redirect is 1,
so the exit code does not equal that count on this path. -/
theorem file_branch_exit_counterexample :
    file_branch_run 10 (fun _ _ => FutureOutcome.ok "ts" ReqOutcome.timeout)
        "urls.json"
        (some (some (JsonVal.arr
          [JsonVal.obj [("url", JsonVal.str "https://a.example"),
            ("caption", JsonVal.str "A")]])))
        [("A", "https://a.example")]
      = RunOutcome.completed
          (poll_urls 10 (fun _ _ => FutureOutcome.ok "ts" ReqOutcome.timeout)
            [("A", "https://a.example")]) 0 ∧
    failed_count
      (poll_urls 10 (fun _ _ => FutureOutcome.ok "ts" ReqOutcome.timeout)
        [("A", "https://a.example")]) = 1 := by
  constructor
  · rfl
  · rfl

/-- C4 (amended): on the in-memory example path the process exit code is
the number of results whose status is neither up nor redirect, and it is
zero exactly when every result is up or a redirect; the input-file path
instead exits with code 0 after every successful run, whatever the
results. -/
theorem exit_code_spec (t : Nat) (env : String → String → FutureOutcome)
    (completed : List (String × String)) (hperm : completed.Perm example_urls) :
    main_run t env completed
      = RunOutcome.completed (poll_urls t env completed)
          (failed_count (poll_urls t env completed)) ∧
    (failed_count (poll_urls t env completed) = 0 ↔
      ∀ r ∈ poll_urls t env completed,
        r.status = "up" ∨ r.status = "redirect") ∧
    (∀ (filename : String) (j : JsonVal) (urls completedF : List (String × String)),
      extract_urls j = some urls →
      file_branch_run t env filename (some (some j)) completedF
        = RunOutcome.completed (poll_urls t env completedF) 0) := by
  refine ⟨rfl, ?_, ?_⟩
  · simp [failed_count, List.length_eq_zero, List.filter_eq_nil_iff, not_or]
    exact forall₂_congr fun r hr => or_iff_not_imp_left.symm
  · intro filename j urls completedF hex
    simp [file_branch_run, load_urls_from_file, hex]

/-- Witness for C4 matching the example of the spec: three endpoints
classified up, client error and timeout give exit code 2. -/
theorem exit_code_spec_witness :
    (example_urls.Perm example_urls) ∧
    main_run 10
      (fun n _ =>
        if n == "Google" then FutureOutcome.ok "t" (ReqOutcome.response 200 1)
        else if n == "Amazon" then FutureOutcome.ok "t" (ReqOutcome.response 404 1)
        else FutureOutcome.ok "t" ReqOutcome.timeout)
      example_urls
      = RunOutcome.completed
          (poll_urls 10
            (fun n _ =>
              if n == "Google" then FutureOutcome.ok "t" (ReqOutcome.response 200 1)
              else if n == "Amazon" then FutureOutcome.ok "t" (ReqOutcome.response 404 1)
              else FutureOutcome.ok "t" ReqOutcome.timeout)
            example_urls)
          (failed_count
            (poll_urls 10
              (fun n _ =>
                if n == "Google" then FutureOutcome.ok "t" (ReqOutcome.response 200 1)
                else if n == "Amazon" then FutureOutcome.ok "t" (ReqOutcome.response 404 1)
                else FutureOutcome.ok "t" ReqOutcome.timeout)
              example_urls)) ∧
    failed_count
      (poll_urls 10
        (fun n _ =>
          if n == "Google" then FutureOutcome.ok "t" (ReqOutcome.response 200 1)
          else if n == "Amazon" then FutureOutcome.ok "t" (ReqOutcome.response 404 1)
          else FutureOutcome.ok "t" ReqOutcome.timeout)
        example_urls) = 2 :=
  ⟨List.Perm.refl _,
    (exit_code_spec 10
      (fun n _ =>
        if n == "Google" then FutureOutcome.ok "t" (ReqOutcome.response 200 1)
        else if n == "Amazon" then FutureOutcome.ok "t" (ReqOutcome.response 404 1)
        else FutureOutcome.ok "t" ReqOutcome.timeout)
      example_urls (List.Perm.refl _)).1,
    by
      have hp := List.perm_insertionSort nameLe
        (example_urls.map (fun p =>
          futureResult 10 p.1 p.2
            ((fun n (_ : String) =>
              if n == "Google" then FutureOutcome.ok "t" (ReqOutcome.response 200 1)
              else if n == "Amazon" then FutureOutcome.ok "t" (ReqOutcome.response 404 1)
              else FutureOutcome.ok "t" ReqOutcome.timeout) p.1 p.2)))
      unfold failed_count poll_urls
      rw [← List.countP_eq_length_filter, hp.countP_eq,
        List.countP_eq_length_filter]
      decide⟩

/-- C7: a missing input file or a file with malformed JSON makes the
input-file path print a diagnostic naming the file and terminate with
exit code 1, producing no results at all (no check is attempted). -/
theorem load_fail_fast (t : Nat) (env : String → String → FutureOutcome)
    (completed : List (String × String)) (filename : String)
    (fs : Option (Option JsonVal)) (h : fs = none ∨ fs = some none) :
    ∃ a b, load_urls_from_file filename fs
        = LoadOutcome.fatal (a ++ filename ++ b) 1 ∧
      file_branch_run t env filename fs completed
        = RunOutcome.fatalExit (a ++ filename ++ b) 1 ∧
      (1 : Nat) ≠ 0 := by
  rcases h with rfl | rfl
  · exact ⟨"Error: File \x27", "\x27 not found", rfl, rfl, by decide⟩
  · exact ⟨"Error: Invalid JSON in file \x27", "\x27", rfl, rfl, by decide⟩

/-- Witness for C7 at a missing file named urls.json. -/
theorem load_fail_fast_witness :
    ((none : Option (Option JsonVal)) = none ∨
      (none : Option (Option JsonVal)) = some none) ∧
    (∃ a b, load_urls_from_file "urls.json" none
        = LoadOutcome.fatal (a ++ "urls.json" ++ b) 1 ∧
      file_branch_run 10 (fun _ _ => FutureOutcome.ok "t" ReqOutcome.timeout)
        "urls.json" none [] = RunOutcome.fatalExit (a ++ "urls.json" ++ b) 1 ∧
      (1 : Nat) ≠ 0) :=
  ⟨Or.inl rfl,
    load_fail_fast 10 (fun _ _ => FutureOutcome.ok "t" ReqOutcome.timeout)
      [] "urls.json" none (Or.inl rfl)⟩
